import Mathlib

/-
Verification development for the `rigctld` client library.

Shallow embedding of `src/rig.rs` (protocol client) and `src/daemon.rs`
(process supervisor).  Pure code is translated to Lean functions; the
stateful client is explicit state passing over a `Rig` record, with the
outcomes of the external transport (connect result, write result, read
result) passed in as explicit parameters.  Rust `u64`/`u16` values are
modelled as `Nat` with explicit `< 2 ^ 64` / `< 2 ^ 16` bounds where the
source's integer parsing can overflow.  A Rust panic (a `.unwrap()` on an
`Err`/`None`) is modelled by the distinguished outcome `PResult.panicked`.
Strings on the wire are modelled as `List Char` restricted to ASCII, which
covers the whole protocol alphabet.
-/

set_option autoImplicit false
set_option linter.unusedVariables false

/-- Error type of the client, translated from `enum RigError` in `src/rig.rs`
(variants: `ConnectionError`, `InternalError`). -/
inductive RigError where
  | ConnectionError
  | InternalError
deriving DecidableEq, Repr

/-- Outcome of a client call, with Rust panics made explicit: `ok`/`err`
mirror `Result`, and `panicked` marks a `.unwrap()` on a failed value. -/
inductive PResult (α : Type) where
  | ok (a : α)
  | err (e : RigError)
  | panicked
deriving DecidableEq, Repr

/-- Modulation modes, translated from `enum Mode` in `src/rig.rs`. -/
inductive Mode where
  | USB | LSB | CW | CWR | RTTY | RTTYR | AM | FM | WFM | AMS
  | PKTLSB | PKTUSB | PKTFM | ECSSUSB | ECSSLSB | FAX | SAM | SAL | SAH | DSB
deriving DecidableEq, Repr

/-- Translation of `impl fmt::Display for Mode` in `src/rig.rs`. -/
def Mode.toStr : Mode → String
  | Mode.USB => "USB"
  | Mode.LSB => "LSB"
  | Mode.CW => "CW"
  | Mode.CWR => "CWR"
  | Mode.RTTY => "RTTY"
  | Mode.RTTYR => "RTTYR"
  | Mode.AM => "AM"
  | Mode.FM => "FM"
  | Mode.WFM => "WFM"
  | Mode.AMS => "AMS"
  | Mode.PKTLSB => "PKTLSB"
  | Mode.PKTUSB => "PKTUSB"
  | Mode.PKTFM => "PKTFM"
  | Mode.ECSSUSB => "ECSSUSB"
  | Mode.ECSSLSB => "ECSSLSB"
  | Mode.FAX => "FAX"
  | Mode.SAM => "SAM"
  | Mode.SAL => "SAL"
  | Mode.SAH => "SAH"
  | Mode.DSB => "DSB"

/-- Translation of `impl FromStr for Mode` in `src/rig.rs`: the Rust `match`
on the string is a first-match chain over the twenty tokens, any other
string being `Err(RigError::InternalError)`. -/
def Mode.fromStr (s : String) : Except RigError Mode :=
  if s = "USB" then Except.ok Mode.USB
  else if s = "LSB" then Except.ok Mode.LSB
  else if s = "CW" then Except.ok Mode.CW
  else if s = "CWR" then Except.ok Mode.CWR
  else if s = "RTTY" then Except.ok Mode.RTTY
  else if s = "RTTYR" then Except.ok Mode.RTTYR
  else if s = "AM" then Except.ok Mode.AM
  else if s = "FM" then Except.ok Mode.FM
  else if s = "WFM" then Except.ok Mode.WFM
  else if s = "AMS" then Except.ok Mode.AMS
  else if s = "PKTLSB" then Except.ok Mode.PKTLSB
  else if s = "PKTUSB" then Except.ok Mode.PKTUSB
  else if s = "PKTFM" then Except.ok Mode.PKTFM
  else if s = "ECSSUSB" then Except.ok Mode.ECSSUSB
  else if s = "ECSSLSB" then Except.ok Mode.ECSSLSB
  else if s = "FAX" then Except.ok Mode.FAX
  else if s = "SAM" then Except.ok Mode.SAM
  else if s = "SAL" then Except.ok Mode.SAL
  else if s = "SAH" then Except.ok Mode.SAH
  else if s = "DSB" then Except.ok Mode.DSB
  else Except.error RigError.InternalError

/-- Power states, translated from `enum PowerState` in `src/rig.rs`. -/
inductive PowerState where
  | PowerOff
  | PowerOn
  | StandBy
deriving DecidableEq, Repr

/-- Translation of `impl fmt::Display for PowerState` in `src/rig.rs`. -/
def PowerState.toStr : PowerState → String
  | PowerState.PowerOff => "0"
  | PowerState.PowerOn => "1"
  | PowerState.StandBy => "2"

/-- Translation of `impl FromStr for PowerState` in `src/rig.rs`. -/
def PowerState.fromStr (s : String) : Except RigError PowerState :=
  if s = "0" then Except.ok PowerState.PowerOff
  else if s = "1" then Except.ok PowerState.PowerOn
  else if s = "2" then Except.ok PowerState.StandBy
  else Except.error RigError.InternalError


/-- Character class of the regex atom `\d` (the protocol lines are ASCII, so
the Unicode decimal digits that Rust's default `\d` additionally accepts are
irrelevant; on ASCII input the two classes agree). -/
def isDigitChar (c : Char) : Bool := '0' ≤ c && c ≤ '9'

/-- Character class of the regex atom `[A-Z]`. -/
def isUpperChar (c : Char) : Bool := 'A' ≤ c && c ≤ 'Z'

/-- Whitespace test of Rust's `str::trim_end`, restricted to its ASCII
fragment (the only whitespace that can occur in the protocol's lines is
`' '`, `'\t'`, `'\n'`, `'\r'`). -/
def isWhiteChar (c : Char) : Bool :=
  c = ' ' || c = '\t' || c = '\n' || c = '\x0b' || c = '\x0c' || c = '\r'

/-- Translation of `str::trim_end`: remove trailing whitespace. -/
def trimEnd (l : List Char) : List Char :=
  (l.reverse.dropWhile isWhiteChar).reverse

/-- Matching of a literal fragment of a regex: `dropLit lit l` returns the
rest of `l` after the literal `lit`, or `none` if `lit` is not in front. -/
def dropLit : List Char → List Char → Option (List Char)
  | [], rest => some rest
  | _ :: _, [] => none
  | c :: cs, d :: ds => if c = d then dropLit cs ds else none

/-- Numeric value of a digit string, most significant digit first. -/
def digitsToNat (ds : List Char) : Nat :=
  ds.foldl (fun a c => a * 10 + (c.toNat - 48)) 0

/-- Behaviour of Rust's `str::parse::<u64>()` on the strings the regex
captures feed it (nonempty, all digits): the parse succeeds iff the value
fits in 64 bits, and fails with `PosOverflow` otherwise.  The general
preconditions (nonempty, digits only) are kept in the model so that the
function is a faithful restriction of `u64::from_str`. -/
def parseU64 (ds : List Char) : Option Nat :=
  if ds ≠ [] ∧ ds.all isDigitChar = true ∧ digitsToNat ds < 2 ^ 64 then
    some (digitsToNat ds)
  else none

/-- Behaviour of Rust's `str::parse::<u16>()`, as `parseU64` with the
16-bit bound. -/
def parseU16 (ds : List Char) : Option Nat :=
  if ds ≠ [] ∧ ds.all isDigitChar = true ∧ digitsToNat ds < 2 ^ 16 then
    some (digitsToNat ds)
  else none

/-
Each of the six anchored response regexes of `src/rig.rs` is a sequence of
literal fragments and capture groups `(\d+)`, `([A-Z]+)` or `(\d)`.  In all
of them every repeated capture group is followed by a literal character
outside its class (`;` after `\d+` and `[A-Z]+`, `' '` after `[A-Z]+` in
`set_mode`), so the regex has a match iff the maximal run of class
characters is nonempty and is followed by exactly the remaining literal:
backtracking to a shorter run would place a class character where the
out-of-class literal is required.  The matchers below therefore use maximal
munch (`takeWhile`/`dropWhile`) and are extensionally equal to the anchored
regexes on every line.
-/

/-- Matcher of `^get_freq:;Frequency: (\d+);RPRT 0$` (from
`Rig::get_frequency`), returning the capture. -/
def matchGetFreq (line : List Char) : Option (List Char) :=
  match dropLit "get_freq:;Frequency: ".data line with
  | none => none
  | some rest =>
    let ds := rest.takeWhile isDigitChar
    if ds ≠ [] ∧ rest.dropWhile isDigitChar = ";RPRT 0".data then some ds
    else none

/-- Matcher of `^set_freq: (\d+);RPRT 0$` (from `Rig::set_frequency`),
returning the capture. -/
def matchSetFreq (line : List Char) : Option (List Char) :=
  match dropLit "set_freq: ".data line with
  | none => none
  | some rest =>
    let ds := rest.takeWhile isDigitChar
    if ds ≠ [] ∧ rest.dropWhile isDigitChar = ";RPRT 0".data then some ds
    else none

/-- Matcher of `^get_mode:;Mode: ([A-Z]+);Passband: (\d+);RPRT 0$` (from
`Rig::get_mode`), returning both captures. -/
def matchGetMode (line : List Char) : Option (List Char × List Char) :=
  match dropLit "get_mode:;Mode: ".data line with
  | none => none
  | some rest =>
    let tok := rest.takeWhile isUpperChar
    if tok = [] then none
    else
      match dropLit ";Passband: ".data (rest.dropWhile isUpperChar) with
      | none => none
      | some r2 =>
        let ds := r2.takeWhile isDigitChar
        if ds ≠ [] ∧ r2.dropWhile isDigitChar = ";RPRT 0".data then
          some (tok, ds)
        else none

/-- Matcher of `^set_mode: ([A-Z]+) (\d+);RPRT 0$` (from `Rig::set_mode`),
returning both captures. -/
def matchSetMode (line : List Char) : Option (List Char × List Char) :=
  match dropLit "set_mode: ".data line with
  | none => none
  | some rest =>
    let tok := rest.takeWhile isUpperChar
    if tok = [] then none
    else
      match dropLit " ".data (rest.dropWhile isUpperChar) with
      | none => none
      | some r2 =>
        let ds := r2.takeWhile isDigitChar
        if ds ≠ [] ∧ r2.dropWhile isDigitChar = ";RPRT 0".data then
          some (tok, ds)
        else none

/-- Matcher of `^get_powerstat:;Power Status: (\d);RPRT 0$` (from
`Rig::get_powerstate`), returning the single captured digit. -/
def matchGetPowerstat (line : List Char) : Option Char :=
  match dropLit "get_powerstat:;Power Status: ".data line with
  | none => none
  | some rest =>
    match rest with
    | [] => none
    | c :: tail =>
      if isDigitChar c = true ∧ tail = ";RPRT 0".data then some c else none

/-- Matcher of `^set_powerstat: (\d);RPRT 0$` (from `Rig::set_powerstate`),
returning the single captured digit. -/
def matchSetPowerstat (line : List Char) : Option Char :=
  match dropLit "set_powerstat: ".data line with
  | none => none
  | some rest =>
    match rest with
    | [] => none
    | c :: tail =>
      if isDigitChar c = true ∧ tail = ";RPRT 0".data then some c else none

/-- Client state, translated from `struct Rig` in `src/rig.rs`.  The
`reader`/`writer` options hold live transport halves; only their presence
is observable in the control flow, so they are modelled by the two
booleans (`is_some` of the respective field).  `timeout` is the duration
in milliseconds. -/
structure Rig where
  host : String
  port : Nat
  hasReader : Bool
  hasWriter : Bool
  timeout : Nat
deriving DecidableEq, Repr

/-- Translation of `Rig::new`: no connection halves, 250 ms timeout. -/
def Rig.new (host : String) (port : Nat) : Rig :=
  { host := host, port := port, hasReader := false, hasWriter := false,
    timeout := 250 }

/-- Translation of `Rig::set_communication_timeout`. -/
def Rig.setCommunicationTimeout (r : Rig) (t : Nat) : Rig :=
  { r with timeout := t }

/-- Outcome of the transport-level `TcpStream::connect`, decided by the
environment. -/
inductive ConnectOutcome where
  | success
  | failure
deriving DecidableEq, Repr

/-- Translation of `Rig::connect`: if both halves are held, return
`Err(RigError::ConnectionError)` before any transport attempt (the result
and the state are independent of the transport outcome); otherwise attempt
the connection, storing both halves on success and mapping a transport
failure to `ConnectionError`. -/
def Rig.connect (r : Rig) (o : ConnectOutcome) : Except RigError Unit × Rig :=
  if r.hasReader && r.hasWriter then (Except.error RigError.ConnectionError, r)
  else
    match o with
    | ConnectOutcome.failure => (Except.error RigError.ConnectionError, r)
    | ConnectOutcome.success =>
      (Except.ok (), { r with hasReader := true, hasWriter := true })

/-- Translation of `Rig::disconnect`: if both halves are absent, return
`Err(RigError::ConnectionError)`; otherwise drop both halves and return
`Ok(())`. -/
def Rig.disconnect (r : Rig) : Except RigError Unit × Rig :=
  if !r.hasReader && !r.hasWriter then
    (Except.error RigError.ConnectionError, r)
  else (Except.ok (), { r with hasReader := false, hasWriter := false })

/-- Outcome of the bounded `read_line` step, decided by the environment:
the timeout elapsed, the peer closed the stream (`Ok(0)`), a transport
error (`Err(_)`), or a successful read of the raw line `raw` (`Ok(n)`,
`n > 0`, `raw` including its terminator). -/
inductive ReadOutcome where
  | timeoutExpired
  | closed
  | ioFailure
  | data (raw : List Char)
deriving DecidableEq, Repr

/-- Outcome of the transport write inside `write_line`. -/
inductive WriteOutcome where
  | wok
  | wfail
deriving DecidableEq, Repr

/-- Translation of the free function `read_line` in `src/rig.rs`: a timeout
maps to `ConnectionError`, a zero-byte read (`Ok(0)`) maps to
`ConnectionError`, a transport error maps to `InternalError`, and a
successful read returns the line with trailing whitespace trimmed.  The
configured timeout value only selects when `timeoutExpired` occurs, which
the environment decides, so it does not appear as an argument. -/
def readLine (o : ReadOutcome) : Except RigError (List Char) :=
  match o with
  | ReadOutcome.timeoutExpired => Except.error RigError.ConnectionError
  | ReadOutcome.closed => Except.error RigError.ConnectionError
  | ReadOutcome.ioFailure => Except.error RigError.InternalError
  | ReadOutcome.data raw => Except.ok (trimEnd raw)

/-- Bytes handed to the transport by the free function `write_line` in
`src/rig.rs`: the request with a single `'\n'` appended. -/
def writeLine (data : List Char) : List Char := data ++ ['\n']

/-- Embedding of `Except` results into panic-aware results. -/
def ofExcept {α : Type} : Except RigError α → PResult α
  | Except.ok a => PResult.ok a
  | Except.error e => PResult.err e

/-- Translation of `Rig::execute_command`: `self.writer.as_mut().unwrap()`
panics when no writer half is held; then the write (whose transport failure
is mapped to `ConnectionError` by `write_line`) and, on success,
`self.reader.as_mut().unwrap()` (panicking when no reader half is held)
followed by the bounded read.  The state is returned unchanged: no branch
of the source touches the halves. -/
def Rig.executeCommand (r : Rig) (input : List Char) (w : WriteOutcome)
    (o : ReadOutcome) : PResult (List Char) × Rig :=
  if r.hasWriter then
    match w with
    | WriteOutcome.wfail => (PResult.err RigError.ConnectionError, r)
    | WriteOutcome.wok =>
      if r.hasReader then (ofExcept (readLine o), r)
      else (PResult.panicked, r)
  else (PResult.panicked, r)

/-- Request line of `Rig::get_frequency`: the Rust raw string
`r";\get_freq"`. -/
def getFreqRequest : List Char := ";\\get_freq".data

/-- Request line of `Rig::set_frequency`:
`format!(r";\set_freq {}", frequency)`. -/
def setFreqRequest (f : Nat) : List Char :=
  ";\\set_freq ".data ++ (Nat.repr f).data

/-- Request line of `Rig::get_mode`: the Rust raw string `r";\get_mode"`. -/
def getModeRequest : List Char := ";\\get_mode".data

/-- Request line of `Rig::set_mode`:
`format!(r";\set_mode {} {}", mode, passband)`. -/
def setModeRequest (m : Mode) (pb : Nat) : List Char :=
  ";\\set_mode ".data ++ (Mode.toStr m).data ++ " ".data ++ (Nat.repr pb).data

/-- Request line of `Rig::get_powerstate`: the Rust raw string
`r";\get_powerstat"`. -/
def getPowerstatRequest : List Char := ";\\get_powerstat".data

/-- Request line of `Rig::set_powerstate`:
`format!(r";\set_powerstat {}", state)`. -/
def setPowerstatRequest (s : PowerState) : List Char :=
  ";\\set_powerstat ".data ++ (PowerState.toStr s).data

/-- Translation of `Rig::get_frequency`: execute the command, match the
response against the anchored grammar (`InternalError` on mismatch), then
`parse::<u64>().unwrap()` the capture — the unwrap panics when the digits
overflow `u64`. -/
def Rig.getFrequency (r : Rig) (w : WriteOutcome) (o : ReadOutcome) :
    PResult Nat × Rig :=
  match r.executeCommand getFreqRequest w o with
  | (PResult.ok response, r2) =>
    match matchGetFreq response with
    | none => (PResult.err RigError.InternalError, r2)
    | some ds =>
      match parseU64 ds with
      | some n => (PResult.ok n, r2)
      | none => (PResult.panicked, r2)
  | (PResult.err e, r2) => (PResult.err e, r2)
  | (PResult.panicked, r2) => (PResult.panicked, r2)

/-- Translation of `Rig::set_frequency`: execute, match the anchored
grammar (`InternalError` on mismatch), `parse::<u64>().unwrap()` the echo
(panic on overflow), then compare the echo with the request. -/
def Rig.setFrequency (r : Rig) (frequency : Nat) (w : WriteOutcome)
    (o : ReadOutcome) : PResult Unit × Rig :=
  match r.executeCommand (setFreqRequest frequency) w o with
  | (PResult.ok response, r2) =>
    match matchSetFreq response with
    | none => (PResult.err RigError.InternalError, r2)
    | some ds =>
      match parseU64 ds with
      | some n =>
        if n = frequency then (PResult.ok (), r2)
        else (PResult.err RigError.InternalError, r2)
      | none => (PResult.panicked, r2)
  | (PResult.err e, r2) => (PResult.err e, r2)
  | (PResult.panicked, r2) => (PResult.panicked, r2)

/-- Translation of `Rig::get_mode`: execute, match the anchored grammar
(`InternalError` on mismatch), `Mode::from_str(..)?` on the token (its
`InternalError` propagates), then `parse::<u16>().unwrap()` on the
passband (panic on overflow). -/
def Rig.getMode (r : Rig) (w : WriteOutcome) (o : ReadOutcome) :
    PResult (Mode × Nat) × Rig :=
  match r.executeCommand getModeRequest w o with
  | (PResult.ok response, r2) =>
    match matchGetMode response with
    | none => (PResult.err RigError.InternalError, r2)
    | some (tok, ds) =>
      match Mode.fromStr (String.mk tok) with
      | Except.error e => (PResult.err e, r2)
      | Except.ok m =>
        match parseU16 ds with
        | some n => (PResult.ok (m, n), r2)
        | none => (PResult.panicked, r2)
  | (PResult.err e, r2) => (PResult.err e, r2)
  | (PResult.panicked, r2) => (PResult.panicked, r2)

/-- Translation of `Rig::set_mode`: execute, match the anchored grammar
(`InternalError` on mismatch), `Mode::from_str(..)?` on the echoed token
(before the passband is parsed, as in the source), then
`parse::<u16>().unwrap()` on the echoed passband (panic on overflow), then
compare both echoes with the request. -/
def Rig.setMode (r : Rig) (mode : Mode) (passband : Nat) (w : WriteOutcome)
    (o : ReadOutcome) : PResult Unit × Rig :=
  match r.executeCommand (setModeRequest mode passband) w o with
  | (PResult.ok response, r2) =>
    match matchSetMode response with
    | none => (PResult.err RigError.InternalError, r2)
    | some (tok, ds) =>
      match Mode.fromStr (String.mk tok) with
      | Except.error e => (PResult.err e, r2)
      | Except.ok modeOut =>
        match parseU16 ds with
        | some passbandOut =>
          if mode = modeOut ∧ passbandOut = passband then (PResult.ok (), r2)
          else (PResult.err RigError.InternalError, r2)
        | none => (PResult.panicked, r2)
  | (PResult.err e, r2) => (PResult.err e, r2)
  | (PResult.panicked, r2) => (PResult.panicked, r2)

/-- Translation of `Rig::get_powerstate`: execute, match the anchored
grammar (`InternalError` on mismatch), then `PowerState::from_str(..)?` on
the captured digit (its `InternalError` propagates — this operation does
not unwrap). -/
def Rig.getPowerstate (r : Rig) (w : WriteOutcome) (o : ReadOutcome) :
    PResult PowerState × Rig :=
  match r.executeCommand getPowerstatRequest w o with
  | (PResult.ok response, r2) =>
    match matchGetPowerstat response with
    | none => (PResult.err RigError.InternalError, r2)
    | some c =>
      match PowerState.fromStr (String.mk [c]) with
      | Except.error e => (PResult.err e, r2)
      | Except.ok s => (PResult.ok s, r2)
  | (PResult.err e, r2) => (PResult.err e, r2)
  | (PResult.panicked, r2) => (PResult.panicked, r2)

/-- Translation of `Rig::set_powerstate`: execute, match the anchored
grammar (`InternalError` on mismatch), then
`PowerState::from_str(..).unwrap()` on the echoed digit — the unwrap panics
when the digit is outside 0, 1, 2 — and compare the echo with the
request. -/
def Rig.setPowerstate (r : Rig) (state : PowerState) (w : WriteOutcome)
    (o : ReadOutcome) : PResult Unit × Rig :=
  match r.executeCommand (setPowerstatRequest state) w o with
  | (PResult.ok response, r2) =>
    match matchSetPowerstat response with
    | none => (PResult.err RigError.InternalError, r2)
    | some c =>
      match PowerState.fromStr (String.mk [c]) with
      | Except.error _ => (PResult.panicked, r2)
      | Except.ok stateOut =>
        if state = stateOut then (PResult.ok (), r2)
        else (PResult.err RigError.InternalError, r2)
  | (PResult.err e, r2) => (PResult.err e, r2)
  | (PResult.panicked, r2) => (PResult.panicked, r2)

/-- Child process handle, identified by an abstract id. -/
structure Child where
  id : Nat
deriving DecidableEq, Repr

/-- Kinds of `std::io::Error` the supervisor produces. -/
inductive IoErrKind where
  | notFound
  | otherErr
deriving DecidableEq, Repr

/-- Model of `std::io::Error` as its kind plus message. -/
structure IoErr where
  kind : IoErrKind
  msg : String
deriving DecidableEq, Repr

/-- The error built in `src/daemon.rs` when no child handle is held:
`io::Error::new(io::ErrorKind::NotFound, "Daemon not started")`. -/
def notStartedErr : IoErr := { kind := IoErrKind.notFound, msg := "Daemon not started" }

/-- Supervisor handle, translated from `struct Rigctld` in
`src/daemon.rs`: it holds an optional child process. -/
structure Rigctld where
  daemon : Option Child
deriving DecidableEq, Repr

/-- Translation of `Rigctld::new`: wrap a freshly spawned child. -/
def Rigctld.new (child : Child) : Rigctld := { daemon := some child }

/-- Outcome of `Child::kill().await`, decided by the OS. -/
inductive KillOutcome where
  | killOk
  | killFail (e : IoErr)
deriving DecidableEq, Repr

/-- Translation of `Rigctld::kill`: if a child is held, request its
termination and await the outcome; otherwise build the not-started error.
In either case the handle is cleared (`self.daemon = None`) before the
result is returned. -/
def Rigctld.kill (r : Rigctld) (o : KillOutcome) :
    Except IoErr Unit × Rigctld :=
  let res : Except IoErr Unit :=
    match r.daemon with
    | some _ =>
      match o with
      | KillOutcome.killOk => Except.ok ()
      | KillOutcome.killFail e => Except.error e
    | none => Except.error notStartedErr
  (res, { daemon := none })

/-- Daemon configuration, translated from `struct Daemon` in
`src/daemon.rs`. -/
structure Daemon where
  program : String
  host : String
  port : Nat
  model : Nat
  rigFile : Option String
  serialSpeed : Option Nat
  civAddress : Option Nat
deriving DecidableEq, Repr

/-- Translation of `impl Default for Daemon`. -/
def Daemon.default : Daemon :=
  { program := "rigctld", host := "127.0.0.1", port := 4532, model := 1,
    rigFile := none, serialSpeed := none, civAddress := none }

/-- Argument vector built by `Daemon::spawn` from the configuration. -/
def Daemon.args (d : Daemon) : List String :=
  ["-T", d.host, "-t", Nat.repr d.port, "-m", Nat.repr d.model]
    ++ (match d.rigFile with | some r => ["-r", r] | none => [])
    ++ (match d.serialSpeed with | some s => ["-s", Nat.repr s] | none => [])
    ++ (match d.civAddress with | some c => ["-c", Nat.repr c] | none => [])

/-- Outcome of `Command::spawn()`, decided by the OS. -/
inductive SpawnOutcome where
  | spawned (child : Child)
  | spawnFail (e : IoErr)
deriving DecidableEq, Repr

/-- Translation of `Daemon::spawn`: build the command from the
configuration and spawn it.  The function reads only the configuration —
it consults no held child handle — and returns a fresh `Rigctld` wrapping
the new child on success, propagating the OS error otherwise. -/
def Daemon.spawn (d : Daemon) (o : SpawnOutcome) : Except IoErr Rigctld :=
  match o with
  | SpawnOutcome.spawned c => Except.ok (Rigctld.new c)
  | SpawnOutcome.spawnFail e => Except.error e

/-- Connected client obtained by `Rig::new("127.0.0.1", 4532)` followed by
a successful `connect`. -/
def rigC : Rig :=
  { host := "127.0.0.1", port := 4532, hasReader := true, hasWriter := true,
    timeout := 250 }

/-- Well-formed `get_freq` response line as read from the wire (terminator
included). -/
def goodFreqLine : List Char := "get_freq:;Frequency: 14250000;RPRT 0\n".data

/-- Response line to `get_freq` that matches the anchored grammar but whose
numeric field is `2 ^ 64`, one past `u64::MAX`. -/
def overflowFreqLine : List Char :=
  "get_freq:;Frequency: 18446744073709551616;RPRT 0\n".data

/-- Response line to `set_powerstat` that matches the anchored grammar but
echoes the digit `5`, outside the three `PowerState` codes. -/
def badPowerLine : List Char := "set_powerstat: 5;RPRT 0\n".data

theorem mode_fromStr_unknown (s : String) (h : ∀ m : Mode, s ≠ Mode.toStr m) :
    Mode.fromStr s = Except.error RigError.InternalError := by
  have h1 : s ≠ "USB" := h Mode.USB
  have h2 : s ≠ "LSB" := h Mode.LSB
  have h3 : s ≠ "CW" := h Mode.CW
  have h4 : s ≠ "CWR" := h Mode.CWR
  have h5 : s ≠ "RTTY" := h Mode.RTTY
  have h6 : s ≠ "RTTYR" := h Mode.RTTYR
  have h7 : s ≠ "AM" := h Mode.AM
  have h8 : s ≠ "FM" := h Mode.FM
  have h9 : s ≠ "WFM" := h Mode.WFM
  have h10 : s ≠ "AMS" := h Mode.AMS
  have h11 : s ≠ "PKTLSB" := h Mode.PKTLSB
  have h12 : s ≠ "PKTUSB" := h Mode.PKTUSB
  have h13 : s ≠ "PKTFM" := h Mode.PKTFM
  have h14 : s ≠ "ECSSUSB" := h Mode.ECSSUSB
  have h15 : s ≠ "ECSSLSB" := h Mode.ECSSLSB
  have h16 : s ≠ "FAX" := h Mode.FAX
  have h17 : s ≠ "SAM" := h Mode.SAM
  have h18 : s ≠ "SAL" := h Mode.SAL
  have h19 : s ≠ "SAH" := h Mode.SAH
  have h20 : s ≠ "DSB" := h Mode.DSB
  simp [Mode.fromStr, h1, h2, h3, h4, h5, h6, h7, h8, h9, h10, h11, h12, h13,
    h14, h15, h16, h17, h18, h19, h20]

theorem powerState_fromStr_unknown (s : String)
    (h : ∀ p : PowerState, s ≠ PowerState.toStr p) :
    PowerState.fromStr s = Except.error RigError.InternalError := by
  have h1 : s ≠ "0" := h PowerState.PowerOff
  have h2 : s ≠ "1" := h PowerState.PowerOn
  have h3 : s ≠ "2" := h PowerState.StandBy
  simp [PowerState.fromStr, h1, h2, h3]

/-- Claim C10: for every `Mode` value, parsing the token its `Display`
implementation produces yields the value back, and likewise for every
`PowerState` and its single ASCII digit; and any string that is not one of
the listed tokens (resp. digits) fails to parse with `InternalError`. -/
theorem c10_theorem :
    (∀ m : Mode, Mode.fromStr (Mode.toStr m) = Except.ok m) ∧
    (∀ p : PowerState, PowerState.fromStr (PowerState.toStr p) = Except.ok p) ∧
    (∀ s : String, (∀ m : Mode, s ≠ Mode.toStr m) →
      Mode.fromStr s = Except.error RigError.InternalError) ∧
    (∀ s : String, (∀ p : PowerState, s ≠ PowerState.toStr p) →
      PowerState.fromStr s = Except.error RigError.InternalError) := by
  refine ⟨?_, ?_, mode_fromStr_unknown, powerState_fromStr_unknown⟩
  · intro m; cases m <;> rfl
  · intro p; cases p <;> rfl

/-- Witness for C10: the hypothesis-bearing clauses applied at the concrete
non-token strings "XYZ" and "7". -/
theorem c10_witness :
    Mode.fromStr "XYZ" = Except.error RigError.InternalError ∧
    PowerState.fromStr "7" = Except.error RigError.InternalError :=
  ⟨c10_theorem.2.2.1 "XYZ" (by intro m; cases m <;> decide),
   c10_theorem.2.2.2 "7" (by intro p; cases p <;> decide)⟩

/-- Claim C3 (amended): a second `connect` on a client holding a live
connection fails with `ConnectionError` (the code's only connection-level
error — there is no distinct `AlreadyConnected` kind), makes no transport
attempt (the result is the same for every transport outcome and is
produced by the early return), and leaves the whole client state — halves,
host, port, timeout — unchanged. -/
theorem c3_theorem (r : Rig) (o : ConnectOutcome)
    (h : r.hasReader = true ∧ r.hasWriter = true) :
    r.connect o = (Except.error RigError.ConnectionError, r) := by
  simp [Rig.connect, h.1, h.2]

/-- Witness for C3 at the concrete connected client. -/
theorem c3_witness :
    rigC.connect ConnectOutcome.success
      = (Except.error RigError.ConnectionError, rigC) :=
  c3_theorem rigC ConnectOutcome.success ⟨rfl, rfl⟩

/-- Counterexample for C3 as stated: after a successful first `connect`,
the second `connect` fails with `RigError.ConnectionError` — the very same
error a failed transport attempt produces — so no distinct
`AlreadyConnected` failure exists in the code. -/
theorem c3_counterexample :
    (((Rig.new "127.0.0.1" 4532).connect
        ConnectOutcome.success).2.connect ConnectOutcome.success).1
      = Except.error RigError.ConnectionError ∧
    ((Rig.new "127.0.0.1" 4532).connect ConnectOutcome.failure).1
      = Except.error RigError.ConnectionError := ⟨rfl, rfl⟩

/-- Claim C4: evaluation of the code at the failing input.  After a
successful `connect`, the first `disconnect` returns `Ok(())` (the return
type is `Result<(), RigError>`, not a boolean) and the second `disconnect`
returns `Err(RigError::ConnectionError)` — it does fail, contradicting the
claimed idempotent never-failing boolean-returning `disconnect`. -/
theorem c4_eval :
    (((Rig.new "127.0.0.1" 4532).connect
        ConnectOutcome.success).2.disconnect).1 = Except.ok () ∧
    ((((Rig.new "127.0.0.1" 4532).connect
        ConnectOutcome.success).2.disconnect).2.disconnect).1
      = Except.error RigError.ConnectionError := ⟨rfl, rfl⟩

/-- Claim C2 (amended): a zero-byte read (`Ok(0)`, the peer closed the
stream) makes the command fail with `ConnectionError` (the code's only
connection-level error — there is no distinct `ConnectionLost` kind), and
the client state is returned unchanged: neither half is dropped, so
further commands may still be attempted on the same connection. -/
theorem c2_theorem (r : Rig) (input : List Char)
    (h : r.hasReader = true ∧ r.hasWriter = true) :
    r.executeCommand input WriteOutcome.wok ReadOutcome.closed
      = (PResult.err RigError.ConnectionError, r) := by
  simp only [Rig.executeCommand, h.1, h.2, if_true]
  rfl

/-- Witness for C2 at the concrete connected client. -/
theorem c2_witness :
    rigC.executeCommand getFreqRequest WriteOutcome.wok ReadOutcome.closed
      = (PResult.err RigError.ConnectionError, rigC) :=
  c2_theorem rigC getFreqRequest ⟨rfl, rfl⟩

/-- Counterexample for C2 as stated: after `get_frequency` hits a zero-byte
read, the client still holds both halves (no transition to `Disconnected`),
and a further command on the very same connection succeeds — contradicting
both claimed side effects. -/
theorem c2_counterexample :
    rigC.getFrequency WriteOutcome.wok ReadOutcome.closed
      = (PResult.err RigError.ConnectionError, rigC) ∧
    ((rigC.getFrequency WriteOutcome.wok ReadOutcome.closed).2.getFrequency
        WriteOutcome.wok (ReadOutcome.data goodFreqLine)).1
      = PResult.ok 14250000 := ⟨rfl, rfl⟩

/-- Claim C7: every typed operation invoked while the client holds no
connection panics (the `self.writer.as_mut().unwrap()` in
`execute_command` unwraps an absent handle) instead of returning a
`RigError`; connectedness is an unchecked precondition. -/
theorem c7_theorem (r : Rig) (w : WriteOutcome) (o : ReadOutcome) (f : Nat)
    (m : Mode) (pb : Nat) (p : PowerState) (h : r.hasWriter = false) :
    (r.getFrequency w o).1 = PResult.panicked ∧
    (r.setFrequency f w o).1 = PResult.panicked ∧
    (r.getMode w o).1 = PResult.panicked ∧
    (r.setMode m pb w o).1 = PResult.panicked ∧
    (r.getPowerstate w o).1 = PResult.panicked ∧
    (r.setPowerstate p w o).1 = PResult.panicked := by
  have he : ∀ input, r.executeCommand input w o = (PResult.panicked, r) := by
    intro input
    simp [Rig.executeCommand, h]
  refine ⟨?_, ?_, ?_, ?_, ?_, ?_⟩ <;>
    simp [Rig.getFrequency, Rig.setFrequency, Rig.getMode, Rig.setMode,
      Rig.getPowerstate, Rig.setPowerstate, he]

/-- Witness for C7 at the freshly created, never-connected client. -/
theorem c7_witness :
    ((Rig.new "127.0.0.1" 4532).getFrequency WriteOutcome.wok
        (ReadOutcome.data goodFreqLine)).1 = PResult.panicked ∧
    ((Rig.new "127.0.0.1" 4532).setPowerstate PowerState.PowerOff
        WriteOutcome.wok (ReadOutcome.data goodFreqLine)).1
      = PResult.panicked :=
  ⟨(c7_theorem (Rig.new "127.0.0.1" 4532) WriteOutcome.wok
      (ReadOutcome.data goodFreqLine) 0 Mode.USB 0 PowerState.PowerOff
      rfl).1,
   (c7_theorem (Rig.new "127.0.0.1" 4532) WriteOutcome.wok
      (ReadOutcome.data goodFreqLine) 0 Mode.USB 0 PowerState.PowerOff
      rfl).2.2.2.2.2⟩

/-- Claim C1: evaluation of the code at the failing inputs.  A response
line matching the anchored `get_freq` grammar whose numeric field is
`2 ^ 64` (one past `u64::MAX`) makes `get_frequency` panic at
`parse::<u64>().unwrap()`, and a `set_powerstat` response echoing the
digit `5` makes `set_powerstate` panic at
`PowerState::from_str(..).unwrap()` — not return `InternalError`.  A line
that fails the grammar, by contrast, does return `InternalError`. -/
theorem c1_eval :
    (rigC.getFrequency WriteOutcome.wok
        (ReadOutcome.data overflowFreqLine)).1 = PResult.panicked ∧
    (rigC.setPowerstate PowerState.PowerOn WriteOutcome.wok
        (ReadOutcome.data badPowerLine)).1 = PResult.panicked ∧
    (rigC.getFrequency WriteOutcome.wok
        (ReadOutcome.data "garbage\n".data)).1
      = PResult.err RigError.InternalError := ⟨rfl, rfl, rfl⟩

/-- Counterexample for C6 as stated: the line written for `get_frequency`
is `;\get_freq` plus newline — with a leading `;` — and not the §6 table's
bare `\get_freq` plus newline. -/
theorem c6_counterexample :
    writeLine getFreqRequest = ";\\get_freq\n".data ∧
    writeLine getFreqRequest ≠ "\\get_freq\n".data := by
  exact ⟨by decide, by decide⟩

/-- Claim C6 (amended): for every typed operation the bytes handed to the
transport are a single `';'` (the extended-response-protocol marker),
followed by exactly the request line of the §6 wire-protocol table for
that operation, followed by a single newline, and nothing else. -/
theorem c6_theorem :
    writeLine getFreqRequest = ';' :: ("\\get_freq".data ++ ['\n']) ∧
    (∀ f : Nat, writeLine (setFreqRequest f)
      = ';' :: (("\\set_freq ".data ++ (Nat.repr f).data) ++ ['\n'])) ∧
    writeLine getModeRequest = ';' :: ("\\get_mode".data ++ ['\n']) ∧
    (∀ (m : Mode) (pb : Nat), writeLine (setModeRequest m pb)
      = ';' :: (("\\set_mode ".data ++ (Mode.toStr m).data ++ " ".data
          ++ (Nat.repr pb).data) ++ ['\n'])) ∧
    writeLine getPowerstatRequest
      = ';' :: ("\\get_powerstat".data ++ ['\n']) ∧
    (∀ p : PowerState, writeLine (setPowerstatRequest p)
      = ';' :: (("\\set_powerstat ".data ++ (PowerState.toStr p).data)
          ++ ['\n'])) :=
  ⟨rfl, fun _ => rfl, rfl, fun _ _ => rfl, rfl, fun _ => rfl⟩

/-- Counterexample for C5 as stated: two consecutive `spawn` calls on the
same configuration both succeed (given the OS can create the process),
each returning a fresh live handle — there is no `AlreadyRunning` failure
and no check of any held handle. -/
theorem c5_counterexample :
    Daemon.default.spawn (SpawnOutcome.spawned { id := 7 })
      = Except.ok (Rigctld.new { id := 7 }) ∧
    Daemon.default.spawn (SpawnOutcome.spawned { id := 8 })
      = Except.ok (Rigctld.new { id := 8 }) := ⟨rfl, rfl⟩

/-- Claim C5 (amended): `spawn` is an operation of the configuration value
and consults no child handle: whenever the OS can create the process it
succeeds and returns a fresh supervisor handle owning the new child, and
it fails only by propagating the OS spawn error; in particular a caller
holding a live handle who calls `spawn` again simply obtains a second
handle. -/
theorem c5_theorem :
    (∀ (d : Daemon) (c : Child),
      d.spawn (SpawnOutcome.spawned c) = Except.ok (Rigctld.new c)) ∧
    (∀ (d : Daemon) (e : IoErr),
      d.spawn (SpawnOutcome.spawnFail e) = Except.error e) :=
  ⟨fun _ _ => rfl, fun _ _ => rfl⟩

/-- Claim C9: `kill` on a supervisor holding a child requests termination
and returns `Ok(())` when the OS kill succeeds; the handle is cleared
whatever the kill outcome; `kill` with no held handle fails with the
not-started error (`ErrorKind::NotFound`, "Daemon not started"); and after
any `kill`, a second `kill` fails with that error. -/
theorem c9_theorem (r : Rigctld) (c : Child) (o o2 : KillOutcome)
    (h : r.daemon = some c) :
    ((r.kill KillOutcome.killOk).1 = Except.ok () ∧
      ((r.kill o).2).daemon = none) ∧
    (∀ r2 : Rigctld, r2.daemon = none →
      (r2.kill o).1 = Except.error notStartedErr) ∧
    ((r.kill o).2.kill o2).1 = Except.error notStartedErr := by
  refine ⟨⟨?_, ?_⟩, ?_, ?_⟩
  · simp [Rigctld.kill, h]
  · simp [Rigctld.kill]
  · intro r2 h2
    simp [Rigctld.kill, h2]
  · simp [Rigctld.kill]

/-- Witness for C9: a spawned supervisor, killed twice — the first kill
succeeds, the second fails with the not-started error. -/
theorem c9_witness :
    ((Rigctld.new { id := 1 }).kill KillOutcome.killOk).1 = Except.ok () ∧
    (((Rigctld.new { id := 1 }).kill
        KillOutcome.killOk).2.kill KillOutcome.killOk).1
      = Except.error notStartedErr :=
  ⟨(c9_theorem (Rigctld.new { id := 1 }) { id := 1 } KillOutcome.killOk
      KillOutcome.killOk rfl).1.1,
   (c9_theorem (Rigctld.new { id := 1 }) { id := 1 } KillOutcome.killOk
      KillOutcome.killOk rfl).2.2⟩

theorem matchSetFreq_digits (l ds : List Char)
    (h : matchSetFreq l = some ds) :
    ds ≠ [] ∧ ds.all isDigitChar = true := by
  unfold matchSetFreq at h
  cases hd : dropLit "set_freq: ".data l with
  | none => rw [hd] at h; cases h
  | some rest =>
    rw [hd] at h
    dsimp only at h
    split at h
    · rename_i hcond
      injection h with h2
      subst h2
      refine ⟨hcond.1, ?_⟩
      exact List.all_eq_true.mpr fun a ha => List.mem_takeWhile_imp ha
    · cases h

theorem setFrequency_data (r : Rig) (f : Nat) (raw : List Char)
    (hr : r.hasReader = true) (hw : r.hasWriter = true) :
    r.setFrequency f WriteOutcome.wok (ReadOutcome.data raw) =
      (match matchSetFreq (trimEnd raw) with
       | none => (PResult.err RigError.InternalError, r)
       | some ds =>
         match parseU64 ds with
         | some n =>
           if n = f then (PResult.ok (), r)
           else (PResult.err RigError.InternalError, r)
         | none => (PResult.panicked, r)) := by
  have he : r.executeCommand (setFreqRequest f) WriteOutcome.wok
      (ReadOutcome.data raw) = (PResult.ok (trimEnd raw), r) := by
    simp only [Rig.executeCommand, hr, hw, if_true]
    rfl
  unfold Rig.setFrequency
  rw [he]

/-- Claim C8 (amended): for a connected client, `set_frequency(f)` on a
raw response `raw` returns `Ok(())` iff the trimmed line matches the
anchored set-frequency grammar and the echoed integer equals `f` exactly;
and when the line matches but the echoed value differs from `f`, the call
fails with `InternalError` provided the echoed digits denote a value that
fits in `u64` (an echo past `u64::MAX` makes the parse unwrap panic
instead — the one deviation from the claim as stated). -/
theorem c8_theorem (r : Rig) (f : Nat) (raw : List Char)
    (hr : r.hasReader = true) (hw : r.hasWriter = true)
    (hf : f < 2 ^ 64) :
    ((r.setFrequency f WriteOutcome.wok (ReadOutcome.data raw)).1
        = PResult.ok () ↔
      (∃ ds, matchSetFreq (trimEnd raw) = some ds ∧ digitsToNat ds = f)) ∧
    (∀ ds, matchSetFreq (trimEnd raw) = some ds →
      digitsToNat ds < 2 ^ 64 → digitsToNat ds ≠ f →
      (r.setFrequency f WriteOutcome.wok (ReadOutcome.data raw)).1
        = PResult.err RigError.InternalError) := by
  rw [setFrequency_data r f raw hr hw]
  constructor
  · cases hm : matchSetFreq (trimEnd raw) with
    | none => simp [hm]
    | some ds =>
      obtain ⟨hne, hall⟩ := matchSetFreq_digits _ _ hm
      by_cases hlt : digitsToNat ds < 2 ^ 64
      · have hp : parseU64 ds = some (digitsToNat ds) := by
          unfold parseU64
          rw [if_pos ⟨hne, hall, hlt⟩]
        simp only [hm, hp]
        by_cases heq : digitsToNat ds = f
        · simp [heq]
        · simp [heq]
      · have hp : parseU64 ds = none := by
          unfold parseU64
          rw [if_neg]
          intro hc
          exact hlt hc.2.2
        simp only [hm, hp]
        constructor
        · intro hcontra
          exact absurd hcontra (by simp)
        · rintro ⟨ds2, hds2, hdf⟩
          injection hds2 with hds2
          subst hds2
          exact absurd (hdf ▸ hf) hlt
  · intro ds hm hlt hne2
    obtain ⟨hne, hall⟩ := matchSetFreq_digits _ _ hm
    have hp : parseU64 ds = some (digitsToNat ds) := by
      unfold parseU64
      rw [if_pos ⟨hne, hall, hlt⟩]
    simp [hm, hp, hne2]

/-- Witness for C8 at a concrete connected client, frequency 5 and the
exact echo response. -/
theorem c8_witness :
    (rigC.setFrequency 5 WriteOutcome.wok
        (ReadOutcome.data "set_freq: 5;RPRT 0\n".data)).1
      = PResult.ok () :=
  (c8_theorem rigC 5 "set_freq: 5;RPRT 0\n".data rfl rfl
      (by decide)).1.mpr ⟨"5".data, by decide, by decide⟩

/-- Counterexample for C8 as stated: with requested frequency 1, a
response matching the grammar whose echoed value `2 ^ 64` differs from 1
makes the call panic rather than fail with `InternalError`. -/
theorem c8_counterexample :
    (rigC.setFrequency 1 WriteOutcome.wok
        (ReadOutcome.data "set_freq: 18446744073709551616;RPRT 0\n".data)).1
      = PResult.panicked ∧
    (PResult.panicked : PResult Unit) ≠ PResult.err RigError.InternalError :=
  ⟨rfl, by decide⟩
